import Mathlib

/-!
Shallow embedding of `scripts/fetch-imf-data.py` (fact-forge), a linear
Fetch-Score-Insert batch job, together with theorems about its scoring
functions, deduplicating insertion, fetchers and batch driver.

Modelling conventions:
* Python numbers (DB numerics, pandas floats) are modelled as `ℚ`;
  day counts and tier scores as `ℤ`.
* The Python built-in `round` (bankers rounding, round-half-to-even) is
  modelled by `pyRound` on `ℚ`.
* The Python `str` applied to an observation value is an abstract parameter
  `pyStr : ℚ → String` (the embedding does not commit to float formatting).
* The wall clock enters only through `calculate_recency_score`; following
  the code, the age in days is `(now - evaluated_at).days`, modelled as a
  parameter `daysSince : String → ℤ` supplied to `insert_evaluation`.
* Database tables are explicit values: the `sources` table is a lookup
  `String → Option SourceMetrics` keyed by domain, the `facts_evaluation`
  table a `List EvalRow`, the single `scoring_settings` row an
  `Option ScoringSettings`.
* Exceptions inside the fetcher try block (network, parse) surface as
  the `Except.error` case of the API result, carrying the Python
  `f"{TypeName}: {message}"` string.
-/

/-- Python 3 `round` on a rational: nearest integer, ties to even. -/
def pyRound (q : ℚ) : ℤ :=
  let f : ℤ := ⌊q⌋
  let r : ℚ := q - (f : ℚ)
  if r < 1/2 then f
  else if 1/2 < r then f + 1
  else if f % 2 = 0 then f else f + 1

/-- One row of the `sources` table: the three 0–100 reliability metrics. -/
structure SourceMetrics where
  public_trust : ℚ
  data_accuracy : ℚ
  proprietary_score : ℚ
deriving DecidableEq

set_option linter.unusedVariables false in
/-- Model of `calculate_source_trust_score(conn, source_url)`: queries the `sources`
table for the fixed domain `www.imf.org` (the `source_url` argument is
not used in the query); averages the three metrics, rounds; defaults to 91
when the row is absent. -/
def calculate_source_trust_score (sources : String → Option SourceMetrics)
    (source_url : String) : ℤ :=
  match sources "www.imf.org" with
  | some s => pyRound ((s.public_trust + s.data_accuracy + s.proprietary_score) / 3)
  | none => 91

/-- Model of `calculate_recency_score`: tiered score from the age in days.
The code computes `days_old = (datetime.now() - fromisoformat(evaluated_at)).days`;
here `days_old` is passed in directly. -/
def calculate_recency_score (days_old tier1_days tier1_score tier2_days
    tier2_score tier3_score : ℤ) : ℤ :=
  if days_old ≤ tier1_days then tier1_score
  else if days_old ≤ tier2_days then tier2_score
  else tier3_score

/-- Model of `calculate_trust_score`: weighted average of the three sub-scores,
rounded; 0 when the total weight is 0. -/
def calculate_trust_score (source_trust recency consensus st_weight
    rec_weight con_weight : ℚ) : ℤ :=
  let total_weight := st_weight + rec_weight + con_weight
  if total_weight = 0 then 0
  else pyRound ((source_trust * st_weight + recency * rec_weight +
      consensus * con_weight) / total_weight)

/-- The single `scoring_settings` row (the fields the script reads). -/
structure ScoringSettings where
  recency_tier1_days : ℤ
  recency_tier1_score : ℤ
  recency_tier2_days : ℤ
  recency_tier2_score : ℤ
  recency_tier3_score : ℤ
  source_trust_weight : ℚ
  recency_weight : ℚ
  consensus_weight : ℚ

/-- One row of the `facts_evaluation` table as written by the INSERT in
`insert_evaluation` (the `attribute` column is named `attr` here because
`attribute` is a Lean keyword). -/
structure EvalRow where
  entity : String
  attr : String
  value : String
  value_type : String
  source_url : String
  source_trust : String
  source_trust_score : ℤ
  recency_score : ℤ
  consensus_score : ℤ
  source_trust_weight : ℚ
  recency_weight : ℚ
  consensus_weight : ℚ
  trust_score : ℤ
  evaluation_notes : String
  evaluated_at : String
  status : String

/-- Model of `evaluation_exists(conn, entity, attribute, source_url, value)`:
SELECT 1 ... WHERE the four columns match; true iff some row matches. -/
def evaluation_exists (db : List EvalRow) (entity attr source_url value : String) :
    Bool :=
  db.any fun r =>
    r.entity == entity && r.attr == attr && r.source_url == source_url &&
      r.value == value

/-- Model of `insert_evaluation(conn, entity, attribute, value, source_url,
evaluated_at, settings, notes)`: computes the three sub-scores and the
weighted trust score and builds the row the INSERT writes.
`daysSince ts` models `(datetime.now() - datetime.fromisoformat(ts)).days`;
`pyStr` models Python `str` on the numeric value. -/
def insert_evaluation (sources : String → Option SourceMetrics)
    (daysSince : String → ℤ) (pyStr : ℚ → String)
    (entity attr : String) (value : ℚ) (source_url evaluated_at : String)
    (settings : ScoringSettings) (notes : String) : EvalRow :=
  let source_trust_score := calculate_source_trust_score sources source_url
  let recency_score := calculate_recency_score (daysSince evaluated_at)
    settings.recency_tier1_days settings.recency_tier1_score
    settings.recency_tier2_days settings.recency_tier2_score
    settings.recency_tier3_score
  let consensus_score : ℤ := 95
  let trust_score := calculate_trust_score (source_trust_score : ℚ)
    (recency_score : ℚ) (consensus_score : ℚ) settings.source_trust_weight
    settings.recency_weight settings.consensus_weight
  { entity := entity
    attr := attr
    value := pyStr value
    value_type := "numeric"
    source_url := source_url
    source_trust := "IMF"
    source_trust_score := source_trust_score
    recency_score := recency_score
    consensus_score := consensus_score
    source_trust_weight := settings.source_trust_weight
    recency_weight := settings.recency_weight
    consensus_weight := settings.consensus_weight
    trust_score := trust_score
    evaluation_notes := notes
    evaluated_at := evaluated_at
    status := "evaluating" }

/-- A pandas index entry for the period of one observation: either a tuple
(MultiIndex entry, iterable) or a scalar label. -/
inductive Period where
  | composite : List String → Period
  | scalar : String → Period
deriving DecidableEq, Inhabited

/-- The year the fetchers derive from the latest period:
`latest_period[0]` when the period is iterable and nonempty, otherwise
`str(latest_period)[:4]` (for an empty tuple, `str` gives `"()"`). -/
def periodYear : Period → String
  | .composite (y :: _) => y
  | .composite [] => "()".take 4
  | .scalar s => s.take 4

/-- Order on periods used by `sort_index`: lexicographic on tuple entries,
string order on scalars (a pandas index is homogeneous; the mixed cases are
fixed arbitrarily). -/
def periodLe : Period → Period → Prop
  | .scalar a, .scalar b => a ≤ b
  | .composite a, .composite b => a ≤ b
  | .scalar _, .composite _ => True
  | .composite _, .scalar _ => False

instance : DecidableRel periodLe := fun a b =>
  match a, b with
  | .scalar a, .scalar b => inferInstanceAs (Decidable (a ≤ b))
  | .composite a, .composite b => inferInstanceAs (Decidable (a ≤ b))
  | .scalar _, .composite _ => inferInstanceAs (Decidable True)
  | .composite _, .scalar _ => inferInstanceAs (Decidable False)

lemma periodLe_refl (p : Period) : periodLe p p := by
  cases p <;> simp [periodLe]

lemma periodLe_total (a b : Period) : periodLe a b ∨ periodLe b a := by
  cases a <;> cases b <;> simp [periodLe] <;> apply le_total

lemma periodLe_trans {a b c : Period} (hab : periodLe a b) (hbc : periodLe b c) :
    periodLe a c := by
  cases a <;> cases b <;> cases c <;> simp_all [periodLe] <;> exact le_trans hab hbc

/-- Descending order on observations `(period, value)` by period:
`df.sort_index(ascending=False)` puts the most recent period first. -/
def obsDescRel (x y : Period × ℚ) : Prop := periodLe y.1 x.1

instance : DecidableRel obsDescRel := fun x y =>
  inferInstanceAs (Decidable (periodLe y.1 x.1))

instance : IsTotal (Period × ℚ) obsDescRel :=
  ⟨fun x y => (periodLe_total y.1 x.1).elim Or.inl Or.inr⟩

instance : IsTrans (Period × ℚ) obsDescRel :=
  ⟨fun _ _ _ hxy hyz => periodLe_trans hyz hxy⟩

/-- The series sorted by period descending (`df.sort_index(ascending=False)`). -/
def sortDesc (df : List (Period × ℚ)) : List (Period × ℚ) :=
  df.insertionSort obsDescRel

lemma sortDesc_perm (df : List (Period × ℚ)) : List.Perm (sortDesc df) df :=
  List.perm_insertionSort _ df

lemma sortDesc_sorted (df : List (Period × ℚ)) :
    List.Sorted obsDescRel (sortDesc df) :=
  List.sorted_insertionSort _ df

/-- Taking the head of the descending sort selects an observation of the
series whose period is maximal: the most recent one. -/
lemma sortDesc_headI_spec (df : List (Period × ℚ)) (hdf : df ≠ []) :
    (sortDesc df).headI ∈ df ∧
      ∀ x ∈ df, periodLe x.1 ((sortDesc df).headI).1 := by
  have hp := sortDesc_perm df
  obtain ⟨h, t, he⟩ : ∃ h t, sortDesc df = h :: t := by
    cases hq : sortDesc df with
    | nil => exact absurd ((hq ▸ hp).symm.eq_nil) hdf
    | cons h t => exact ⟨h, t, rfl⟩
  have hs := sortDesc_sorted df
  rw [he] at hs
  constructor
  · refine hp.mem_iff.mp ?_
    rw [he]
    exact List.mem_cons_self h t
  · intro x hx
    have hx2 : x ∈ h :: t := by
      rw [← he]
      exact hp.mem_iff.mpr hx
    rw [he]
    rcases List.mem_cons.mp hx2 with rfl | hxt
    · exact periodLe_refl _
    · exact List.rel_of_sorted_cons hs x hxt

/-- One request to the IMF SDMX API: `imf_client.data(dataset, key=key,
params={startPeriod: start})`. -/
structure ApiCall where
  dataset : String
  key : String
  startPeriod : ℕ
deriving DecidableEq

/-- Result of one fetcher invocation: the updated `facts_evaluation`
table, the returned insert count, the printed log lines, and the API
requests issued. New rows are recorded by consing (row order within the
table is not significant for the script, which only tests membership). -/
abbrev FetchResult := List EvalRow × ℕ × List String × List ApiCall

/-- Model of `fetch_imf_inflation`: queries dataset `CPI`, key
`{country_code}.PCPI_IX`, start period 2020. An exception anywhere in the
`try` block surfaces as `Except.error` carrying the Python
`f"{TypeName}: {message}"` string and is caught: logged, zero insertions.
Otherwise: empty series → 0; else take the head of the descending sort,
derive the year, build the year-end timestamp, skip if the
(entity, attribute, source_url, str(value)) tuple already exists, else
insert one row. -/
def fetch_imf_inflation (api : ApiCall → Except String (List (Period × ℚ)))
    (country_code country_name : String) (db : List EvalRow)
    (settings : ScoringSettings) (sources : String → Option SourceMetrics)
    (daysSince : String → ℤ) (pyStr : ℚ → String) : FetchResult :=
  let call : ApiCall := ⟨"CPI", country_code ++ ".PCPI_IX", 2020⟩
  match api call with
  | .error e => (db, 0, ["inflation error: " ++ e], [call])
  | .ok df =>
    if df = [] then (db, 0, [], [call])
    else
      let latest := (sortDesc df).headI
      let latest_value := latest.2
      let year := periodYear latest.1
      let evaluated_at := year ++ "-12-31"
      let source_url := "https://www.imf.org/external/datamapper/datasets/CPI"
      if evaluation_exists db country_name "inflation" source_url (pyStr latest_value) then
        (db, 0, ["inflation already exists"], [call])
      else
        (insert_evaluation sources daysSince pyStr country_name "inflation"
            latest_value source_url evaluated_at settings
            ("IMF CPI data, year " ++ year) :: db,
          1, ["inflation inserted"], [call])

/-- Model of `fetch_imf_gdp`: same shape as the inflation fetcher with dataset
`IFS`, key `{country_code}.NGDP_XDC`, attribute `gdp` and the IFS source
URL and note. -/
def fetch_imf_gdp (api : ApiCall → Except String (List (Period × ℚ)))
    (country_code country_name : String) (db : List EvalRow)
    (settings : ScoringSettings) (sources : String → Option SourceMetrics)
    (daysSince : String → ℤ) (pyStr : ℚ → String) : FetchResult :=
  let call : ApiCall := ⟨"IFS", country_code ++ ".NGDP_XDC", 2020⟩
  match api call with
  | .error e => (db, 0, ["gdp error: " ++ e], [call])
  | .ok df =>
    if df = [] then (db, 0, [], [call])
    else
      let latest := (sortDesc df).headI
      let latest_value := latest.2
      let year := periodYear latest.1
      let evaluated_at := year ++ "-12-31"
      let source_url := "https://www.imf.org/external/datamapper/datasets/IFS"
      if evaluation_exists db country_name "gdp" source_url (pyStr latest_value) then
        (db, 0, ["gdp already exists"], [call])
      else
        (insert_evaluation sources daysSince pyStr country_name "gdp"
            latest_value source_url evaluated_at settings
            ("IMF IFS GDP data, year " ++ year) :: db,
          1, ["gdp inserted"], [call])

/-- The static IMF country-code to canonical-name mapping. -/
def COUNTRY_CODE_MAP : List (String × String) :=
  [("ARG", "Argentina"), ("AUS", "Australia"), ("AUT", "Austria"),
   ("BGD", "Bangladesh"), ("BEL", "Belgium"), ("BRA", "Brazil"),
   ("CAN", "Canada"), ("CHL", "Chile"), ("COL", "Colombia"),
   ("CZE", "Czech Republic"), ("DNK", "Denmark"), ("EGY", "Egypt"),
   ("FIN", "Finland"), ("FRA", "France"), ("DEU", "Germany"),
   ("GRC", "Greece"), ("HUN", "Hungary"), ("IND", "India"),
   ("IDN", "Indonesia"), ("IRL", "Ireland"), ("ISR", "Israel"),
   ("ITA", "Italy"), ("JPN", "Japan"), ("NLD", "Kingdom of the Netherlands"),
   ("MYS", "Malaysia"), ("MEX", "Mexico"), ("NZL", "New Zealand"),
   ("NGA", "Nigeria"), ("NOR", "Norway"), ("PAK", "Pakistan"),
   ("PRY", "Paraguay"), ("CHN", "People\x27s Republic of China"),
   ("PHL", "Philippines"), ("POL", "Poland"), ("PRT", "Portugal"),
   ("ROU", "Romania"), ("RUS", "Russia"), ("SAU", "Saudi Arabia"),
   ("SGP", "Singapore"), ("ZAF", "South Africa"), ("KOR", "South Korea"),
   ("ESP", "Spain"), ("SWE", "Sweden"), ("CHE", "Switzerland"),
   ("THA", "Thailand"), ("TUR", "Turkey"), ("USA", "United States"),
   ("VNM", "Vietnam")]

/-- The country list the driver iterates over. -/
def test_countries : List String := ["USA", "CAN", "DEU", "JPN", "GBR"]

/-- How a run of `main` ends: `sys.exit(code)` or normal completion with
the reported total insert count. -/
inductive RunOutcome where
  | exited : ℤ → RunOutcome
  | finished : ℕ → RunOutcome
deriving DecidableEq

/-- The batch loop of `main`, run with the single settings row loaded at
startup: per country, map the code to its canonical name (skipping
unmapped codes), run both fetchers threading the table, and accumulate
the insert count and the API requests issued. -/
def runBatch (api : ApiCall → Except String (List (Period × ℚ)))
    (settings : ScoringSettings) (sources : String → Option SourceMetrics)
    (daysSince : String → ℤ) (pyStr : ℚ → String) (db : List EvalRow) :
    List EvalRow × ℕ × List ApiCall :=
  test_countries.foldl
    (fun acc country_code =>
      match COUNTRY_CODE_MAP.lookup country_code with
      | none => acc
      | some country_name =>
        let r1 := fetch_imf_inflation api country_code country_name acc.1
          settings sources daysSince pyStr
        let r2 := fetch_imf_gdp api country_code country_name r1.1
          settings sources daysSince pyStr
        (r2.1, acc.2.1 + r1.2.1 + r2.2.1, acc.2.2 ++ r1.2.2.2 ++ r2.2.2.2))
    (db, 0, [])

namespace Script

/-- Model of `main()`: loads the settings row once; if none is found, prints an
error and exits with status 1 (no API request, no insert); otherwise runs
the batch loop with that settings row and reports the total count. -/
def main (settingsRow : Option ScoringSettings)
    (api : ApiCall → Except String (List (Period × ℚ)))
    (sources : String → Option SourceMetrics) (daysSince : String → ℤ)
    (pyStr : ℚ → String) (db : List EvalRow) :
    List EvalRow × RunOutcome × List ApiCall :=
  match settingsRow with
  | none => (db, .exited 1, [])
  | some settings =>
    let r := runBatch api settings sources daysSince pyStr db
    (r.1, .finished r.2.1, r.2.2)

end Script

/-! ## Helper lemmas -/

lemma evaluation_exists_cons (r : EvalRow) (db : List EvalRow)
    (e a u v : String) :
    evaluation_exists (r :: db) e a u v =
      ((r.entity == e && r.attr == a && r.source_url == u && r.value == v) ||
        evaluation_exists db e a u v) := by
  simp [evaluation_exists]

/-- Unfolding of the inflation fetcher on a nonempty successful API
result. -/
lemma fetch_imf_inflation_ok
    (api : ApiCall → Except String (List (Period × ℚ)))
    (country_code country_name : String) (db : List EvalRow)
    (settings : ScoringSettings) (sources : String → Option SourceMetrics)
    (daysSince : String → ℤ) (pyStr : ℚ → String) (df : List (Period × ℚ))
    (hapi : api ⟨"CPI", country_code ++ ".PCPI_IX", 2020⟩ = .ok df)
    (hdf : df ≠ []) :
    fetch_imf_inflation api country_code country_name db settings sources
        daysSince pyStr =
      if evaluation_exists db country_name "inflation"
          "https://www.imf.org/external/datamapper/datasets/CPI"
          (pyStr (sortDesc df).headI.2) then
        (db, 0, ["inflation already exists"],
          [⟨"CPI", country_code ++ ".PCPI_IX", 2020⟩])
      else
        (insert_evaluation sources daysSince pyStr country_name "inflation"
            (sortDesc df).headI.2
            "https://www.imf.org/external/datamapper/datasets/CPI"
            (periodYear (sortDesc df).headI.1 ++ "-12-31") settings
            ("IMF CPI data, year " ++ periodYear (sortDesc df).headI.1) :: db,
          1, ["inflation inserted"],
          [⟨"CPI", country_code ++ ".PCPI_IX", 2020⟩]) := by
  simp only [fetch_imf_inflation, hapi]
  rw [if_neg hdf]

/-- Unfolding of the GDP fetcher on a nonempty successful API result. -/
lemma fetch_imf_gdp_ok
    (api : ApiCall → Except String (List (Period × ℚ)))
    (country_code country_name : String) (db : List EvalRow)
    (settings : ScoringSettings) (sources : String → Option SourceMetrics)
    (daysSince : String → ℤ) (pyStr : ℚ → String) (df : List (Period × ℚ))
    (hapi : api ⟨"IFS", country_code ++ ".NGDP_XDC", 2020⟩ = .ok df)
    (hdf : df ≠ []) :
    fetch_imf_gdp api country_code country_name db settings sources
        daysSince pyStr =
      if evaluation_exists db country_name "gdp"
          "https://www.imf.org/external/datamapper/datasets/IFS"
          (pyStr (sortDesc df).headI.2) then
        (db, 0, ["gdp already exists"],
          [⟨"IFS", country_code ++ ".NGDP_XDC", 2020⟩])
      else
        (insert_evaluation sources daysSince pyStr country_name "gdp"
            (sortDesc df).headI.2
            "https://www.imf.org/external/datamapper/datasets/IFS"
            (periodYear (sortDesc df).headI.1 ++ "-12-31") settings
            ("IMF IFS GDP data, year " ++ periodYear (sortDesc df).headI.1) :: db,
          1, ["gdp inserted"],
          [⟨"IFS", country_code ++ ".NGDP_XDC", 2020⟩]) := by
  simp only [fetch_imf_gdp, hapi]
  rw [if_neg hdf]

/-! ## Claims -/

/-- C1 counterexample: the claim reads the first argument of
`calculate_source_trust_score` as the domain looked up. With a `sources`
table containing only `example.com` with metrics (0, 0, 0) and the domain
`example.com` given, the claim predicts round((0+0+0)/3) = 0, but the code
looks up `www.imf.org`, finds nothing, and returns the default 91. -/
theorem claim1_counterexample :
    (fun d => if d = "example.com" then some (⟨0, 0, 0⟩ : SourceMetrics) else none)
        "example.com" = some ⟨0, 0, 0⟩ ∧
    pyRound (((0 : ℚ) + 0 + 0) / 3) = 0 ∧
    calculate_source_trust_score
      (fun d => if d = "example.com" then some ⟨0, 0, 0⟩ else none)
      "example.com" = 91 ∧
    (91 : ℤ) ≠ 0 := by
  refine ⟨by norm_num, by norm_num [pyRound], ?_, by norm_num⟩
  decide

/-- C1 (amended): `calculate_source_trust_score` keys on the fixed domain
`www.imf.org`, not on its argument: whenever the `sources` table has a row
for `www.imf.org`, the result is round of the average of the three
metrics of that row; whenever it has none, the result is 91 — in both cases for every
`source_url` argument. -/
theorem claim1_amended (sources : String → Option SourceMetrics)
    (source_url : String) :
    (∀ m : SourceMetrics, sources "www.imf.org" = some m →
      calculate_source_trust_score sources source_url =
        pyRound ((m.public_trust + m.data_accuracy + m.proprietary_score) / 3)) ∧
    (sources "www.imf.org" = none →
      calculate_source_trust_score sources source_url = 91) := by
  constructor
  · intro m hm
    simp [calculate_source_trust_score, hm]
  · intro hm
    simp [calculate_source_trust_score, hm]

/-- C1 amended, witnessed at a present row (90, 92, 91) and at an absent
row. -/
theorem claim1_amended_witness :
    calculate_source_trust_score (fun _ => some ⟨90, 92, 91⟩) "url1" =
      pyRound (((90 : ℚ) + 92 + 91) / 3) ∧
    calculate_source_trust_score (fun _ => none) "url2" = 91 :=
  ⟨(claim1_amended (fun _ => some ⟨90, 92, 91⟩) "url1").1 ⟨90, 92, 91⟩ rfl,
   (claim1_amended (fun _ => none) "url2").2 rfl⟩

/-- C2: whenever the weights sum to a nonzero total,
`calculate_trust_score` is the rounded weighted average; in particular
weights (3, 1, 1) with scores (90, 100, 95) give 93. -/
theorem claim2_trust_score_formula :
    (∀ a b c w1 w2 w3 : ℚ, w1 + w2 + w3 ≠ 0 →
      calculate_trust_score a b c w1 w2 w3 =
        pyRound ((a * w1 + b * w2 + c * w3) / (w1 + w2 + w3))) ∧
    calculate_trust_score 90 100 95 3 1 1 = 93 := by
  constructor
  · intro a b c w1 w2 w3 h
    simp [calculate_trust_score, h]
  · norm_num [calculate_trust_score, pyRound]

/-- C2, witnessed at scores (1, 2, 3) and weights (1, 1, 1). -/
theorem claim2_witness :
    calculate_trust_score 1 2 3 1 1 1 =
      pyRound (((1 : ℚ) * 1 + 2 * 1 + 3 * 1) / (1 + 1 + 1)) :=
  claim2_trust_score_formula.1 1 2 3 1 1 1 (by norm_num)

/-- C3 counterexample, in two parts. Monotonicity: with tier settings
tier1_days = 0, tier1_score = 0, tier2_days = 1, tier2_score = 100,
tier3_score = 0 — quantified over by the claim — the recency score
increases from age 0 to age 1. Tier-2 boundary: with tier1_days = 5,
tier1_score = 100, tier2_days = 3, tier2_score = 80, tier3_score = 50, an
age exactly equal to tier2_days = 3 also satisfies the first test
(3 ≤ tier1_days) and yields tier1_score = 100, not tier2_score = 80. -/
theorem claim3_counterexample :
    ((0 : ℤ) ≤ 1 ∧
     calculate_recency_score 0 0 0 1 100 0 = 0 ∧
     calculate_recency_score 1 0 0 1 100 0 = 100 ∧
     ¬ calculate_recency_score 1 0 0 1 100 0 ≤
       calculate_recency_score 0 0 0 1 100 0) ∧
    (calculate_recency_score 3 5 100 3 80 50 = 100 ∧ (100 : ℤ) ≠ 80) := by
  decide

/-- C3 (amended): for settings with non-increasing tier scores
(tier1_score ≥ tier2_score ≥ tier3_score), the recency score is
monotonically non-increasing in the age. The tier-1 boundary is inclusive
for every setting; the tier-2 boundary is inclusive whenever
tier1_days < tier2_days. With the example settings
(30, 100, 90, 80, 50), ages 10, 60, 200 give 100, 80, 50. -/
theorem claim3_amended :
    (∀ d1 d2 t1d t1s t2d t2s t3s : ℤ, d1 ≤ d2 →
      t2s ≤ t1s → t3s ≤ t2s →
      calculate_recency_score d2 t1d t1s t2d t2s t3s ≤
        calculate_recency_score d1 t1d t1s t2d t2s t3s) ∧
    (∀ t1d t1s t2d t2s t3s : ℤ,
      calculate_recency_score t1d t1d t1s t2d t2s t3s = t1s) ∧
    (∀ t1d t1s t2d t2s t3s : ℤ, t1d < t2d →
      calculate_recency_score t2d t1d t1s t2d t2s t3s = t2s) ∧
    calculate_recency_score 10 30 100 90 80 50 = 100 ∧
    calculate_recency_score 60 30 100 90 80 50 = 80 ∧
    calculate_recency_score 200 30 100 90 80 50 = 50 := by
  refine ⟨?_, ?_, ?_, by decide, by decide, by decide⟩
  · intro d1 d2 t1d t1s t2d t2s t3s h12 hs1 hs2
    unfold calculate_recency_score
    split_ifs <;> omega
  · intro t1d t1s t2d t2s t3s
    unfold calculate_recency_score
    split_ifs <;> omega
  · intro t1d t1s t2d t2s t3s hlt
    unfold calculate_recency_score
    split_ifs <;> omega

/-- C3 amended, witnessed on the example settings: ages 10 ≤ 60 give
scores 80 ≤ 100, and the tier-2 boundary age 90 gives 80. -/
theorem claim3_amended_witness :
    calculate_recency_score 60 30 100 90 80 50 ≤
      calculate_recency_score 10 30 100 90 80 50 ∧
    calculate_recency_score 90 30 100 90 80 50 = 80 :=
  ⟨claim3_amended.1 10 60 30 100 90 80 50 (by decide) (by decide)
      (by decide),
   claim3_amended.2.2.1 30 100 90 80 50 (by decide)⟩

/-- C5: when the three weights sum to zero, `calculate_trust_score`
returns 0 without dividing. -/
theorem claim5_zero_weights (a b c w1 w2 w3 : ℚ) (h : w1 + w2 + w3 = 0) :
    calculate_trust_score a b c w1 w2 w3 = 0 := by
  simp [calculate_trust_score, h]

/-- C5, witnessed at weights (1, -1, 0). -/
theorem claim5_witness :
    (1 : ℚ) + (-1) + 0 = 0 ∧ calculate_trust_score 7 8 9 1 (-1) 0 = 0 :=
  ⟨by norm_num, claim5_zero_weights 7 8 9 1 (-1) 0 (by norm_num)⟩

/-- C9: the result of `calculate_source_trust_score` does not depend on
its `source_url` argument — for the same `sources` table, any two URLs
give the same score, because the query uses the fixed domain
`www.imf.org`. -/
theorem claim9_url_independent (sources : String → Option SourceMetrics)
    (url1 url2 : String) :
    calculate_source_trust_score sources url1 =
      calculate_source_trust_score sources url2 := rfl

/-- C10: every row built by `insert_evaluation` carries
value_type = "numeric", source label "IMF", status "evaluating",
consensus score 95, and the observation value in its string form. -/
theorem claim10_insert_constants (sources : String → Option SourceMetrics)
    (daysSince : String → ℤ) (pyStr : ℚ → String) (entity attr : String)
    (value : ℚ) (source_url evaluated_at : String)
    (settings : ScoringSettings) (notes : String) :
    (insert_evaluation sources daysSince pyStr entity attr value source_url
        evaluated_at settings notes).value_type = "numeric" ∧
    (insert_evaluation sources daysSince pyStr entity attr value source_url
        evaluated_at settings notes).source_trust = "IMF" ∧
    (insert_evaluation sources daysSince pyStr entity attr value source_url
        evaluated_at settings notes).status = "evaluating" ∧
    (insert_evaluation sources daysSince pyStr entity attr value source_url
        evaluated_at settings notes).consensus_score = 95 ∧
    (insert_evaluation sources daysSince pyStr entity attr value source_url
        evaluated_at settings notes).value = pyStr value :=
  ⟨rfl, rfl, rfl, rfl, rfl⟩

/-- C4: a (entity, attribute, source URL, stringified value) tuple already
present in the table is never inserted again by the inflation fetcher: the
existence check makes it return the table unchanged with count 0; and
re-running the fetcher on the table produced by a first run inserts zero
new rows and returns 0. -/
theorem claim4_idempotent_insert
    (api : ApiCall → Except String (List (Period × ℚ)))
    (country_code country_name : String) (db : List EvalRow)
    (settings : ScoringSettings) (sources : String → Option SourceMetrics)
    (daysSince : String → ℤ) (pyStr : ℚ → String) (df : List (Period × ℚ))
    (hapi : api ⟨"CPI", country_code ++ ".PCPI_IX", 2020⟩ = .ok df)
    (hdf : df ≠ []) :
    (evaluation_exists db country_name "inflation"
        "https://www.imf.org/external/datamapper/datasets/CPI"
        (pyStr (sortDesc df).headI.2) = true →
      fetch_imf_inflation api country_code country_name db settings sources
          daysSince pyStr =
        (db, 0, ["inflation already exists"],
          [⟨"CPI", country_code ++ ".PCPI_IX", 2020⟩])) ∧
    ((fetch_imf_inflation api country_code country_name
        (fetch_imf_inflation api country_code country_name db settings
            sources daysSince pyStr).1
        settings sources daysSince pyStr).1 =
      (fetch_imf_inflation api country_code country_name db settings sources
          daysSince pyStr).1 ∧
     (fetch_imf_inflation api country_code country_name
        (fetch_imf_inflation api country_code country_name db settings
            sources daysSince pyStr).1
        settings sources daysSince pyStr).2.1 = 0) := by
  have hub := fetch_imf_inflation_ok api country_code country_name db
    settings sources daysSince pyStr df hapi hdf
  constructor
  · intro hex
    rw [hub, if_pos hex]
  · by_cases hex : evaluation_exists db country_name "inflation"
        "https://www.imf.org/external/datamapper/datasets/CPI"
        (pyStr (sortDesc df).headI.2) = true
    · rw [hub, if_pos hex]
      dsimp only
      rw [hub, if_pos hex]
      exact ⟨rfl, rfl⟩
    · rw [hub, if_neg hex]
      dsimp only
      have hex2 : evaluation_exists
          (insert_evaluation sources daysSince pyStr country_name "inflation"
              (sortDesc df).headI.2
              "https://www.imf.org/external/datamapper/datasets/CPI"
              (periodYear (sortDesc df).headI.1 ++ "-12-31") settings
              ("IMF CPI data, year " ++ periodYear (sortDesc df).headI.1) :: db)
          country_name "inflation"
          "https://www.imf.org/external/datamapper/datasets/CPI"
          (pyStr (sortDesc df).headI.2) = true := by
        rw [evaluation_exists_cons]
        simp [insert_evaluation]
      rw [fetch_imf_inflation_ok api country_code country_name _ settings
          sources daysSince pyStr df hapi hdf, if_pos hex2]
      exact ⟨rfl, rfl⟩

/-- C4, witnessed: first run on an empty table inserts one row; the
re-run leaves the table unchanged and returns 0. -/
theorem claim4_witness :
    (fetch_imf_inflation (fun _ => .ok [(.scalar "2023", 5)]) "USA"
        "United States"
        (fetch_imf_inflation (fun _ => .ok [(.scalar "2023", 5)]) "USA"
            "United States" [] ⟨30, 100, 90, 80, 50, 3, 1, 1⟩ (fun _ => none)
            (fun _ => 0) (fun _ => "5.0")).1
        ⟨30, 100, 90, 80, 50, 3, 1, 1⟩ (fun _ => none) (fun _ => 0)
        (fun _ => "5.0")).1 =
      (fetch_imf_inflation (fun _ => .ok [(.scalar "2023", 5)]) "USA"
          "United States" [] ⟨30, 100, 90, 80, 50, 3, 1, 1⟩ (fun _ => none)
          (fun _ => 0) (fun _ => "5.0")).1 ∧
    (fetch_imf_inflation (fun _ => .ok [(.scalar "2023", 5)]) "USA"
        "United States"
        (fetch_imf_inflation (fun _ => .ok [(.scalar "2023", 5)]) "USA"
            "United States" [] ⟨30, 100, 90, 80, 50, 3, 1, 1⟩ (fun _ => none)
            (fun _ => 0) (fun _ => "5.0")).1
        ⟨30, 100, 90, 80, 50, 3, 1, 1⟩ (fun _ => none) (fun _ => 0)
        (fun _ => "5.0")).2.1 = 0 :=
  (claim4_idempotent_insert (fun _ => .ok [(.scalar "2023", 5)]) "USA"
      "United States" [] ⟨30, 100, 90, 80, 50, 3, 1, 1⟩ (fun _ => none)
      (fun _ => 0) (fun _ => "5.0") [(.scalar "2023", 5)] rfl
      (by simp)).2

/-- C6: an exception raised inside the try block of either fetcher (surfacing
as the error case of the API result, carrying the Python
"TypeName: message" string) is caught inside the fetcher: the table is
unchanged, the count is 0, and the log line carries the exception type
and message. -/
theorem claim6_exception_isolated
    (api : ApiCall → Except String (List (Period × ℚ)))
    (country_code country_name : String) (db : List EvalRow)
    (settings : ScoringSettings) (sources : String → Option SourceMetrics)
    (daysSince : String → ℤ) (pyStr : ℚ → String) (e : String) :
    (api ⟨"CPI", country_code ++ ".PCPI_IX", 2020⟩ = .error e →
      fetch_imf_inflation api country_code country_name db settings sources
          daysSince pyStr =
        (db, 0, ["inflation error: " ++ e],
          [⟨"CPI", country_code ++ ".PCPI_IX", 2020⟩])) ∧
    (api ⟨"IFS", country_code ++ ".NGDP_XDC", 2020⟩ = .error e →
      fetch_imf_gdp api country_code country_name db settings sources
          daysSince pyStr =
        (db, 0, ["gdp error: " ++ e],
          [⟨"IFS", country_code ++ ".NGDP_XDC", 2020⟩])) := by
  constructor
  · intro h
    simp [fetch_imf_inflation, h]
  · intro h
    simp [fetch_imf_gdp, h]

/-- C6, witnessed on an API that always raises `ConnectionError: timeout`. -/
theorem claim6_witness :
    fetch_imf_inflation (fun _ => .error "ConnectionError: timeout") "USA"
        "United States" [] ⟨30, 100, 90, 80, 50, 3, 1, 1⟩ (fun _ => none)
        (fun _ => 0) (fun _ => "5.0") =
      ([], 0, ["inflation error: " ++ "ConnectionError: timeout"],
        [⟨"CPI", "USA" ++ ".PCPI_IX", 2020⟩]) ∧
    fetch_imf_gdp (fun _ => .error "ConnectionError: timeout") "USA"
        "United States" [] ⟨30, 100, 90, 80, 50, 3, 1, 1⟩ (fun _ => none)
        (fun _ => 0) (fun _ => "5.0") =
      ([], 0, ["gdp error: " ++ "ConnectionError: timeout"],
        [⟨"IFS", "USA" ++ ".NGDP_XDC", 2020⟩]) :=
  ⟨(claim6_exception_isolated (fun _ => .error "ConnectionError: timeout")
      "USA" "United States" [] ⟨30, 100, 90, 80, 50, 3, 1, 1⟩ (fun _ => none)
      (fun _ => 0) (fun _ => "5.0") "ConnectionError: timeout").1 rfl,
   (claim6_exception_isolated (fun _ => .error "ConnectionError: timeout")
      "USA" "United States" [] ⟨30, 100, 90, 80, 50, 3, 1, 1⟩ (fun _ => none)
      (fun _ => 0) (fun _ => "5.0") "ConnectionError: timeout").2 rfl⟩

/-- C7: each fetcher returns 0 on an empty result set; on a nonempty one
it selects the head of the descending sort of the series — an observation
of the series whose period is maximal — derives the year from the period
label (first component of a nonempty composite period, first four
characters of a scalar label), stamps the evaluation `"YYYY-12-31"`, and
either skips (0) or inserts exactly one row (1); the returned count never
exceeds 1. -/
theorem claim7_fetcher_structure
    (api : ApiCall → Except String (List (Period × ℚ)))
    (country_code country_name : String) (db : List EvalRow)
    (settings : ScoringSettings) (sources : String → Option SourceMetrics)
    (daysSince : String → ℤ) (pyStr : ℚ → String) :
    (∀ df, api ⟨"CPI", country_code ++ ".PCPI_IX", 2020⟩ = .ok df →
      df = [] →
      fetch_imf_inflation api country_code country_name db settings sources
          daysSince pyStr =
        (db, 0, [], [⟨"CPI", country_code ++ ".PCPI_IX", 2020⟩])) ∧
    (∀ df, api ⟨"CPI", country_code ++ ".PCPI_IX", 2020⟩ = .ok df →
      df ≠ [] →
      (sortDesc df).headI ∈ df ∧
      (∀ x ∈ df, periodLe x.1 (sortDesc df).headI.1) ∧
      (fetch_imf_inflation api country_code country_name db settings sources
          daysSince pyStr =
        (db, 0, ["inflation already exists"],
          [⟨"CPI", country_code ++ ".PCPI_IX", 2020⟩]) ∨
       fetch_imf_inflation api country_code country_name db settings sources
          daysSince pyStr =
        (insert_evaluation sources daysSince pyStr country_name "inflation"
            (sortDesc df).headI.2
            "https://www.imf.org/external/datamapper/datasets/CPI"
            (periodYear (sortDesc df).headI.1 ++ "-12-31") settings
            ("IMF CPI data, year " ++ periodYear (sortDesc df).headI.1) :: db,
          1, ["inflation inserted"],
          [⟨"CPI", country_code ++ ".PCPI_IX", 2020⟩]))) ∧
    (fetch_imf_inflation api country_code country_name db settings sources
        daysSince pyStr).2.1 ≤ 1 ∧
    (∀ df, api ⟨"IFS", country_code ++ ".NGDP_XDC", 2020⟩ = .ok df →
      df = [] →
      fetch_imf_gdp api country_code country_name db settings sources
          daysSince pyStr =
        (db, 0, [], [⟨"IFS", country_code ++ ".NGDP_XDC", 2020⟩])) ∧
    (∀ df, api ⟨"IFS", country_code ++ ".NGDP_XDC", 2020⟩ = .ok df →
      df ≠ [] →
      (sortDesc df).headI ∈ df ∧
      (∀ x ∈ df, periodLe x.1 (sortDesc df).headI.1) ∧
      (fetch_imf_gdp api country_code country_name db settings sources
          daysSince pyStr =
        (db, 0, ["gdp already exists"],
          [⟨"IFS", country_code ++ ".NGDP_XDC", 2020⟩]) ∨
       fetch_imf_gdp api country_code country_name db settings sources
          daysSince pyStr =
        (insert_evaluation sources daysSince pyStr country_name "gdp"
            (sortDesc df).headI.2
            "https://www.imf.org/external/datamapper/datasets/IFS"
            (periodYear (sortDesc df).headI.1 ++ "-12-31") settings
            ("IMF IFS GDP data, year " ++ periodYear (sortDesc df).headI.1)
            :: db,
          1, ["gdp inserted"],
          [⟨"IFS", country_code ++ ".NGDP_XDC", 2020⟩]))) ∧
    (fetch_imf_gdp api country_code country_name db settings sources
        daysSince pyStr).2.1 ≤ 1 ∧
    (∀ y rest, periodYear (.composite (y :: rest)) = y) ∧
    (∀ s, periodYear (.scalar s) = s.take 4) := by
  refine ⟨?_, ?_, ?_, ?_, ?_, ?_, fun y rest => rfl, fun s => rfl⟩
  · intro df hapi hdfe
    subst hdfe
    simp [fetch_imf_inflation, hapi]
  · intro df hapi hdf
    obtain ⟨h1, h2⟩ := sortDesc_headI_spec df hdf
    refine ⟨h1, h2, ?_⟩
    rw [fetch_imf_inflation_ok api country_code country_name db settings
      sources daysSince pyStr df hapi hdf]
    split_ifs with hex
    · exact Or.inl rfl
    · exact Or.inr rfl
  · cases hapi : api ⟨"CPI", country_code ++ ".PCPI_IX", 2020⟩ with
    | error e => simp [fetch_imf_inflation, hapi]
    | ok df =>
      by_cases hdf : df = []
      · subst hdf
        simp [fetch_imf_inflation, hapi]
      · rw [fetch_imf_inflation_ok api country_code country_name db settings
          sources daysSince pyStr df hapi hdf]
        split_ifs <;> simp
  · intro df hapi hdfe
    subst hdfe
    simp [fetch_imf_gdp, hapi]
  · intro df hapi hdf
    obtain ⟨h1, h2⟩ := sortDesc_headI_spec df hdf
    refine ⟨h1, h2, ?_⟩
    rw [fetch_imf_gdp_ok api country_code country_name db settings
      sources daysSince pyStr df hapi hdf]
    split_ifs with hex
    · exact Or.inl rfl
    · exact Or.inr rfl
  · cases hapi : api ⟨"IFS", country_code ++ ".NGDP_XDC", 2020⟩ with
    | error e => simp [fetch_imf_gdp, hapi]
    | ok df =>
      by_cases hdf : df = []
      · subst hdf
        simp [fetch_imf_gdp, hapi]
      · rw [fetch_imf_gdp_ok api country_code country_name db settings
          sources daysSince pyStr df hapi hdf]
        split_ifs <;> simp

/-- C7, witnessed on an API returning an empty series for both
indicators: both fetchers return the table unchanged and count 0. -/
theorem claim7_witness :
    fetch_imf_inflation (fun _ => .ok []) "USA" "United States" []
        ⟨30, 100, 90, 80, 50, 3, 1, 1⟩ (fun _ => none) (fun _ => 0)
        (fun _ => "5.0") =
      ([], 0, [], [⟨"CPI", "USA" ++ ".PCPI_IX", 2020⟩]) ∧
    fetch_imf_gdp (fun _ => .ok []) "USA" "United States" []
        ⟨30, 100, 90, 80, 50, 3, 1, 1⟩ (fun _ => none) (fun _ => 0)
        (fun _ => "5.0") =
      ([], 0, [], [⟨"IFS", "USA" ++ ".NGDP_XDC", 2020⟩]) :=
  ⟨(claim7_fetcher_structure (fun _ => .ok []) "USA" "United States" []
      ⟨30, 100, 90, 80, 50, 3, 1, 1⟩ (fun _ => none) (fun _ => 0)
      (fun _ => "5.0")).1 [] rfl rfl,
   (claim7_fetcher_structure (fun _ => .ok []) "USA" "United States" []
      ⟨30, 100, 90, 80, 50, 3, 1, 1⟩ (fun _ => none) (fun _ => 0)
      (fun _ => "5.0")).2.2.2.1 [] rfl rfl⟩

/-- C8: with no scoring settings row, `main` exits with status 1 — nonzero
— leaving the table unchanged and issuing no API request; with a settings
row, it runs the whole batch loop with that one row and finishes normally
with the accumulated count. -/
theorem claim8_settings_fail_fast
    (api : ApiCall → Except String (List (Period × ℚ)))
    (sources : String → Option SourceMetrics) (daysSince : String → ℤ)
    (pyStr : ℚ → String) (db : List EvalRow) :
    Script.main none api sources daysSince pyStr db =
      (db, RunOutcome.exited 1, []) ∧
    (1 : ℤ) ≠ 0 ∧
    (∀ settings, Script.main (some settings) api sources daysSince pyStr db =
      ((runBatch api settings sources daysSince pyStr db).1,
        RunOutcome.finished (runBatch api settings sources daysSince pyStr db).2.1,
        (runBatch api settings sources daysSince pyStr db).2.2)) :=
  ⟨rfl, by norm_num, fun _ => rfl⟩
